import Mathlib

/-!
Shallow embedding of `src/dynatrace_agent/dynatrace_daily_agent.py`
(Dynatrace Daily Architecture Analysis Agent) and proofs about it.

Python dicts built by insertion are modelled as association lists that
preserve insertion order (CPython dicts preserve it); machine integers are
`Int`/`Nat` (Python ints are unbounded, so no wrap-around is modelled);
strings are Lean `String`s over the same code points.
-/

namespace DynatraceAgent

/-! ## Data model (section 3 of the spec; JSON records consumed read-only) -/

/-- One open problem record, as consumed by `_analyze_problems`:
`p.get("title")` and `p.get("severityLevel")`. -/
structure Problem where
  title : String
  severityLevel : String
deriving DecidableEq, Repr

/-- One host entity, as consumed by `_analyze_oneagent`:
`props.get("monitoringMode", "unknown")`, `props.get("installerVersion", "unknown")`.
`none` models a missing property. -/
structure HostEntity where
  monitoringMode : Option String
  installerVersion : Option String
deriving DecidableEq, Repr

/-- One ActiveGate, as consumed by `_analyze_activegate`: `ag.get("connected", False)`. -/
structure ActiveGate where
  connected : Bool
deriving DecidableEq, Repr

/-- One synthetic monitor, as consumed by `_analyze_synthetic`: `m.get("enabled", False)`. -/
structure SyntheticMonitor where
  enabled : Bool
deriving DecidableEq, Repr

/-- The configuration values of the module-level `CONFIG` dict that the
analysis and reporting paths read. `PROBLEM_LOOKBACK_HOURS` and `LOG_FILE`
only parameterize the API query / logging and do not affect the analyzed data. -/
structure Config where
  tenantUrl : String
  apiToken : String
  recipient : String
  checkOneagent : Bool
  checkActivegate : Bool
  checkSynthetic : Bool
deriving DecidableEq, Repr

/-! ## String helpers: Python's `in` substring test and `str.strip()` -/

/-- Whether `pat` is a prefix of `t` (character-wise). -/
def leadMatch : List Char → List Char → Bool
  | [], _ => true
  | _ :: _, [] => false
  | p :: ps, t :: ts => p == t && leadMatch ps ts

/-- Whether `pat` occurs as a contiguous run anywhere in `t`. -/
def hasSubList (pat : List Char) : List Char → Bool
  | [] => leadMatch pat []
  | t :: ts => leadMatch pat (t :: ts) || hasSubList pat ts

/-- Python's `pat in s` substring test. -/
def strContains (s pat : String) : Bool := hasSubList pat.toList s.toList

/-- Python `str.isspace` characters relevant to `str.strip()`. -/
def isPyWS (c : Char) : Bool :=
  c == ' ' || c == '\t' || c == '\n' || c == '\r' || c == '\x0b' || c == '\x0c'

/-- Python's `s.strip()`: drop whitespace from both ends. -/
def pyStrip (s : String) : String :=
  String.mk (((s.toList.dropWhile isPyWS).reverse.dropWhile isPyWS).reverse)

/-! ## Analyzer (`ArchitectureAnalyzer`)

Each `_analyze_*` method is embedded as a function from its raw API
collection to `(result, issues appended by this check)`; `analyze_all`
threads them in program order and concatenates the appended issues, which
models the `self.issues` accumulator list. -/

/-- Result dict of a check that can be skipped: `{"skipped": True}` is
`.skipped`, a completed check is `.ran data`. -/
inductive CheckResult (α : Type) where
  | skipped
  | ran (data : α)
deriving DecidableEq, Repr

/-- Return dict of `_analyze_problems`. -/
structure ProblemsData where
  total : Nat
  critical : Nat
  warnings : Nat
  details : List (String × String)
deriving DecidableEq, Repr

/-- Return dict of `_analyze_oneagent` (when not skipped). Python dicts
(`monitoring_modes`, `top_versions`) are insertion-ordered association lists. -/
structure OneagentData where
  total_hosts : Nat
  monitoring_modes : List (String × Nat)
  version_count : Nat
  top_versions : List (String × Nat)
deriving DecidableEq, Repr

/-- Return dict of `_analyze_activegate` (when not skipped). -/
structure ActivegateData where
  total : Nat
  connected : Nat
  offline : Nat
deriving DecidableEq, Repr

/-- Return dict of `_analyze_synthetic` (when not skipped). -/
structure SyntheticData where
  total : Nat
  enabled : Nat
  disabled : Nat
deriving DecidableEq, Repr

/-- Return dict of `_generate_summary`. -/
structure Summary where
  health_score : Int
  status : String
  issues_count : Nat
  issues : List String
deriving DecidableEq, Repr

/-- The issue string `f"🔴 {len(critical)} critical problems detected"`. -/
def criticalIssueMsg (n : Nat) : String := s!"🔴 {n} critical problems detected"

/-- The issue string
`f"⚠️ OneAgent version fragmentation: {len(versions)} different versions"`. -/
def fragmentationIssueMsg (n : Nat) : String :=
  s!"⚠️ OneAgent version fragmentation: {n} different versions"

/-- The issue string `f"🔴 {offline} ActiveGate(s) offline"`. -/
def offlineIssueMsg (n : Nat) : String := s!"🔴 {n} ActiveGate(s) offline"

/-- `ArchitectureAnalyzer._analyze_problems`: filter by severity, surface the
first 5 problems, and append an issue when any critical problem exists.
(The method consults no configuration toggle.) -/
def analyze_problems (problems : List Problem) : ProblemsData × List String :=
  let critical := problems.filter (fun p => p.severityLevel == "ERROR")
  let warnings := problems.filter (fun p => p.severityLevel == "WARNING")
  let issues := if critical.length > 0 then [criticalIssueMsg critical.length] else []
  (⟨problems.length, critical.length, warnings.length,
    (problems.take 5).map (fun p => (p.title, p.severityLevel))⟩, issues)

/-- `d[k] = d.get(k, 0) + 1` on an insertion-ordered dict: increment in place
if the key is present, else append `(k, 1)` at the end. -/
def bump (l : List (String × Nat)) (k : String) : List (String × Nat) :=
  match l with
  | [] => [(k, 1)]
  | (k', v) :: rest => if k' = k then (k', v + 1) :: rest else (k', v) :: bump rest k

/-- Insertion step of a stable descending sort on the count: the new element
goes after every element whose count is `≥` its own (CPython's `sorted` with
`key=lambda x: x[1], reverse=True` is stable, so ties keep insertion order). -/
def insertDesc (x : String × Nat) : List (String × Nat) → List (String × Nat)
  | [] => [x]
  | y :: ys => if x.2 ≤ y.2 then y :: insertDesc x ys else x :: y :: ys

/-- `sorted(l, key=lambda x: x[1], reverse=True)`: stable descending sort on
the count component, realized as a left fold of stable insertions. -/
def sortDesc (l : List (String × Nat)) : List (String × Nat) :=
  l.foldl (fun acc x => insertDesc x acc) []

/-- The `monitoring_modes` dict built by `_analyze_oneagent`'s loop:
`props.get("monitoringMode", "unknown")` tallied per entity. -/
def modeTally (entities : List HostEntity) : List (String × Nat) :=
  entities.foldl (fun acc e => bump acc (e.monitoringMode.getD "unknown")) []

/-- The `versions` dict built by `_analyze_oneagent`'s loop:
`props.get("installerVersion", "unknown")` tallied per entity. -/
def versionTally (entities : List HostEntity) : List (String × Nat) :=
  entities.foldl (fun acc e => bump acc (e.installerVersion.getD "unknown")) []

/-- `ArchitectureAnalyzer._analyze_oneagent`: skip when the toggle is off;
otherwise tally monitoring modes and installer versions (missing fields count
as `"unknown"`), flag fragmentation when more than 3 distinct versions exist,
and report the top-3 versions by count. -/
def analyze_oneagent (cfg : Config) (entities : List HostEntity) :
    CheckResult OneagentData × List String :=
  if !cfg.checkOneagent then (.skipped, [])
  else
    let versions := versionTally entities
    let issues := if versions.length > 3 then [fragmentationIssueMsg versions.length] else []
    (.ran ⟨entities.length, modeTally entities, versions.length,
      (sortDesc versions).take 3⟩, issues)

/-- `ArchitectureAnalyzer._analyze_activegate`: skip when the toggle is off;
otherwise count connected gateways, derive `offline = total - connected`, and
append an issue when any gateway is offline. -/
def analyze_activegate (cfg : Config) (activegates : List ActiveGate) :
    CheckResult ActivegateData × List String :=
  if !cfg.checkActivegate then (.skipped, [])
  else
    let total := activegates.length
    let connected := (activegates.filter (fun ag => ag.connected)).length
    let offline := total - connected
    let issues := if offline > 0 then [offlineIssueMsg offline] else []
    (.ran ⟨total, connected, offline⟩, issues)

/-- `ArchitectureAnalyzer._analyze_synthetic`: skip when the toggle is off;
otherwise count enabled monitors. No issue is ever appended here. -/
def analyze_synthetic (cfg : Config) (monitors : List SyntheticMonitor) :
    CheckResult SyntheticData × List String :=
  if !cfg.checkSynthetic then (.skipped, [])
  else
    let enabled := (monitors.filter (fun m => m.enabled)).length
    (.ran ⟨monitors.length, enabled, monitors.length - enabled⟩, [])

/-- `ag.get("offline", 0)` on the activegate result dict: a skipped check's
dict `{"skipped": True}` has no `"offline"` key, so the default 0 is used. -/
def agOffline : CheckResult ActivegateData → Nat
  | .skipped => 0
  | .ran d => d.offline

/-- The health-score computation of `_generate_summary`:
`max(0, min(100, 100 - critical*10 - warnings*2 - offline*15))`. -/
def clampScore (critical warnings offline : Nat) : Int :=
  max 0 (min 100 (100 - (critical : Int) * 10 - (warnings : Int) * 2 - (offline : Int) * 15))

/-- `ArchitectureAnalyzer._generate_summary`: clamp the penalty score, map it
to a status string by thresholds, and attach the accumulated issues list with
its length. -/
def generate_summary (problems : ProblemsData) (ag : CheckResult ActivegateData)
    (issues : List String) : Summary :=
  let health_score := clampScore problems.critical problems.warnings (agOffline ag)
  let status :=
    if health_score ≥ 90 then "🟢 Healthy"
    else if health_score ≥ 70 then "🟡 Needs Attention"
    else "🔴 Critical"
  ⟨health_score, status, issues.length, issues⟩

/-- The raw API collections the four checks consume (after the client's
`data.get(..., [])` defaults). -/
structure AnalyzeInput where
  problems : List Problem
  entities : List HostEntity
  activegates : List ActiveGate
  monitors : List SyntheticMonitor
deriving DecidableEq, Repr

/-- The `results` dict built by `analyze_all` (the timestamp entry is elided;
it never feeds back into the analysis). -/
structure AnalysisResult where
  problems : ProblemsData
  oneagent : CheckResult OneagentData
  activegate : CheckResult ActivegateData
  synthetic : CheckResult SyntheticData
  summary : Summary
deriving DecidableEq, Repr

/-- `ArchitectureAnalyzer.analyze_all`: run the four checks in program order,
accumulate their issues in order, then generate the summary. The second
component is the final `self.issues` list. -/
def analyze_all (cfg : Config) (inp : AnalyzeInput) : AnalysisResult × List String :=
  let p := analyze_problems inp.problems
  let o := analyze_oneagent cfg inp.entities
  let a := analyze_activegate cfg inp.activegates
  let s := analyze_synthetic cfg inp.monitors
  let issues := p.2 ++ o.2 ++ a.2 ++ s.2
  (⟨p.1, o.1, a.1, s.1, generate_summary p.1 a.1 issues⟩, issues)

/-! ## Report generation (`generate_daily_report`, `fetch_dynatrace_updates`)

The three report branches are embedded as the raw f-string texts of the
source; `generate_daily_report` applies `pyStrip`, modelling the final
`return report.strip()`. The external API is modelled by a
`ConfiguredOutcome` environment value, and the second component of the
result records the API endpoints called during report generation. -/

/-- `fetch_dynatrace_updates`: returns the fixed placeholder update line. -/
def fetch_dynatrace_updates : String :=
  "📰 Check docs.dynatrace.com/docs/whats-new for latest updates"

/-- `str(e)[:100]`: the first 100 code points of the exception message. -/
def truncate100 (s : String) : String := String.mk (s.toList.take 100)

/-- The raw unconfigured-branch f-string (line 411 of the source ends in two
spaces, reproduced here). -/
def unconfiguredRaw (timestamp : String) : String :=
  "\n🔔 Dynatrace Daily Report\n📅 " ++ timestamp ++
  "\n\n⚠️ SETUP REQUIRED\nConfigure your Dynatrace credentials in:\n~/dynatrace_agent/config.env\n\nOnce configured, you\x27ll receive:\n• Problem summary\n• OneAgent fleet health  \n• ActiveGate status\n• Architecture analysis\n• Latest DT updates\n\n📚 Setup guide in README.md\n"

/-- The raw error-branch f-string. -/
def errorRaw (timestamp msg : String) : String :=
  "\n🔔 Dynatrace Daily Report\n📅 " ++ timestamp ++ "\n\n❌ Error fetching data\n" ++
  truncate100 msg ++ "\n\nCheck logs: ~/Library/Logs/dynatrace_agent.log\n"

/-- `oneagent.get(field, 'N/A')` rendered into the f-string: a skipped
check's dict lacks the field, so `'N/A'` is printed. -/
def oaField (oa : CheckResult OneagentData) (f : OneagentData → Nat) : String :=
  match oa with
  | .skipped => "N/A"
  | .ran d => toString (f d)

/-- `activegate.get(field, 'N/A')` rendered into the f-string. -/
def agField (ag : CheckResult ActivegateData) (f : ActivegateData → Nat) : String :=
  match ag with
  | .skipped => "N/A"
  | .ran d => toString (f d)

/-- The raw normal-branch report text: the f-string block, then the issues
block when `summary['issues']` is nonempty (first 5 issues only), then the
updates line. -/
def normalRaw (timestamp : String) (r : AnalysisResult) : String :=
  "\n🔔 Dynatrace Daily Report\n📅 " ++ timestamp ++ "\n\n" ++
  r.summary.status ++ " | Score: " ++ toString r.summary.health_score ++ "/100\n\n" ++
  "📊 PROBLEMS (24h)\n• Critical: " ++ toString r.problems.critical ++
  "\n• Warnings: " ++ toString r.problems.warnings ++
  "\n• Total: " ++ toString r.problems.total ++
  "\n\n🖥️ ONEAGENT FLEET\n• Total Hosts: " ++ oaField r.oneagent OneagentData.total_hosts ++
  "\n• Versions in use: " ++ oaField r.oneagent OneagentData.version_count ++
  "\n\n🌐 ACTIVEGATES\n• Connected: " ++ agField r.activegate ActivegateData.connected ++
  "/" ++ agField r.activegate ActivegateData.total ++ "\n\n" ++
  (if r.summary.issues.isEmpty then ""
   else "⚠️ ISSUES:\n" ++
        String.join ((r.summary.issues.take 5).map (fun i => "• " ++ i ++ "\n"))) ++
  "\n" ++ fetch_dynatrace_updates

/-- How the configured (non-placeholder) path interacts with the external
API: either some step of the analysis raised an exception (with the message
and the endpoints already called at that point), or the analysis ran to
completion on the fetched collections. -/
inductive ConfiguredOutcome where
  | raised (msg : String) (callsMade : List String)
  | completed (inp : AnalyzeInput)
deriving DecidableEq, Repr

/-- Endpoints called when the analysis runs to completion: `_analyze_problems`
always calls the problems endpoint; each toggled check calls its endpoint
only when its toggle is on (the toggle is tested before the client call). -/
def callsFor (cfg : Config) : List String :=
  ["problems"] ++ (if cfg.checkOneagent then ["entities"] else []) ++
  (if cfg.checkActivegate then ["activeGates"] else []) ++
  (if cfg.checkSynthetic then ["synthetic/monitors"] else [])

/-- The placeholder test of `generate_daily_report`:
`"YOUR_" in CONFIG["DYNATRACE_TENANT_URL"] or "YOUR_" in CONFIG["DYNATRACE_API_TOKEN"]`. -/
def isUnconfigured (cfg : Config) : Bool :=
  strContains cfg.tenantUrl "YOUR_" || strContains cfg.apiToken "YOUR_"

/-- `generate_daily_report`: the unconfigured branch makes no API call and
returns the fixed setup text; otherwise the analysis either raises (the
`except Exception` handler substitutes the error branch, so nothing
propagates past this point) or completes and the normal report is rendered.
Every branch ends in `report.strip()`. -/
def generate_daily_report (cfg : Config) (timestamp : String) (env : ConfiguredOutcome) :
    String × List String :=
  if isUnconfigured cfg then (pyStrip (unconfiguredRaw timestamp), [])
  else
    match env with
    | .raised msg calls => (pyStrip (errorRaw timestamp msg), calls)
    | .completed inp => (pyStrip (normalRaw timestamp (analyze_all cfg inp).1), callsFor cfg)

/-! ## Notifier (`send_imessage`, `send_imessage_fallback`) and `main`

The effect of one `subprocess.run(['osascript', ...], timeout=30)` call is
modelled by a `RunOutcome` environment value: normal completion with a
return code, `subprocess.TimeoutExpired`, or some other raised exception. -/

/-- Outcome of one `subprocess.run` invocation of `osascript`. -/
inductive RunOutcome where
  | exited (returncode : Int) (stderr : String)
  | timedOut
  | raised (msg : String)
deriving DecidableEq, Repr

/-- `send_imessage_fallback`: success is exit status zero; the bare
`except Exception` handler (which also catches `TimeoutExpired`) returns
`False`. -/
def send_imessage_fallback (fb : RunOutcome) : Bool :=
  match fb with
  | .exited code _ => code == 0
  | .timedOut => false
  | .raised _ => false

/-- `send_imessage`, given the outcomes of the primary and (potential)
fallback `osascript` runs. Returns `(result, fallback invoked?)`. Exit 0
succeeds without fallback; a non-zero exit invokes the fallback and returns
its result; `TimeoutExpired` returns `False` without fallback; any other
exception is caught by `except Exception` and returns `False` without
fallback. -/
def send_imessage (primary fallback : RunOutcome) : Bool × Bool :=
  match primary with
  | .exited code _ =>
      if code == 0 then (true, false)
      else (send_imessage_fallback fallback, true)
  | .timedOut => (false, false)
  | .raised _ => (false, false)

/-- What `main` does with the generated report. -/
inductive DeliveryAction where
  | printedOnly
  | sent
  | savedBackup (text : String)
deriving DecidableEq, Repr

/-- The delivery decision of `main`: a recipient containing `"1234567890"`
is treated as unconfigured and the report is only printed; otherwise
`send_imessage` is attempted and on failure the report text is saved to a
timestamped backup file. -/
def main_delivery (recipient report : String) (primary fallback : RunOutcome) :
    DeliveryAction :=
  if strContains recipient "1234567890" then .printedOnly
  else if (send_imessage primary fallback).1 then .sent
  else .savedBackup report

/-! ## Helper lemmas -/

/-- A pattern is a prefix of itself followed by anything. -/
theorem leadMatch_append_self (p z : List Char) : leadMatch p (p ++ z) = true := by
  induction p with
  | nil => rfl
  | cons a as ih => simp [leadMatch, ih]

/-- The empty pattern occurs in every text. -/
theorem hasSubList_nil (t : List Char) : hasSubList [] t = true := by
  cases t <;> simp [hasSubList, leadMatch]

/-- A contiguous run is found by the substring scan. -/
theorem hasSubList_of_infix (pat x y : List Char) :
    hasSubList pat (x ++ (pat ++ y)) = true := by
  induction x with
  | nil =>
      cases pat with
      | nil => exact hasSubList_nil _
      | cons p ps =>
          have h := leadMatch_append_self (p :: ps) y
          simp only [List.cons_append] at h
          simp [hasSubList, h]
  | cons t ts ih => simp [hasSubList, ih]

/-- Python's `t in (a + t + b)` is `True`. -/
theorem strContains_of_infix (a t b : String) : strContains (a ++ t ++ b) t = true := by
  have : (a ++ t ++ b).toList = a.toList ++ (t.toList ++ b.toList) := by
    simp [String.toList]
  rw [strContains, this]
  exact hasSubList_of_infix _ _ _

/-- Two disjoint filters of the same list together keep at most its length. -/
theorem length_filter_add_length_filter_le {α : Type} (p q : α → Bool)
    (h : ∀ x, ¬(p x = true ∧ q x = true)) (l : List α) :
    (l.filter p).length + (l.filter q).length ≤ l.length := by
  induction l with
  | nil => simp
  | cons a l ih =>
      rw [List.filter_cons, List.filter_cons]
      by_cases hp : p a = true <;> by_cases hq : q a = true
      · exact absurd ⟨hp, hq⟩ (h a)
      · simp [hp, hq]
        omega
      · simp [hp, hq]
        omega
      · simp [hp, hq]
        omega

/-- The sum of the counts in a tally dict. -/
def sumCounts (l : List (String × Nat)) : Nat := (l.map (fun kv => kv.2)).sum

/-- `bump` adds exactly one to the total count. -/
theorem sumCounts_bump (l : List (String × Nat)) (k : String) :
    sumCounts (bump l k) = sumCounts l + 1 := by
  induction l with
  | nil => simp [bump, sumCounts]
  | cons kv rest ih =>
      obtain ⟨k', v⟩ := kv
      simp only [sumCounts] at ih ⊢
      by_cases h : k' = k
      · simp [bump, h]
        omega
      · simp [bump, h]
        omega

/-- Folding `bump` over a list adds its length to the total count. -/
theorem sumCounts_foldl_bump (f : HostEntity → String) (es : List HostEntity) :
    ∀ acc : List (String × Nat),
      sumCounts (es.foldl (fun a e => bump a (f e)) acc) = sumCounts acc + es.length := by
  induction es with
  | nil => intro acc; simp
  | cons e es ih =>
      intro acc
      rw [List.foldl_cons, ih, sumCounts_bump]
      simp [List.length_cons]
      omega

/-- The mode tally distributes every entity into exactly one bucket. -/
theorem sumCounts_modeTally (entities : List HostEntity) :
    sumCounts (modeTally entities) = entities.length := by
  have := sumCounts_foldl_bump (fun e => e.monitoringMode.getD "unknown") entities []
  simpa [modeTally, sumCounts] using this

/-- The version tally distributes every entity into exactly one bucket. -/
theorem sumCounts_versionTally (entities : List HostEntity) :
    sumCounts (versionTally entities) = entities.length := by
  have := sumCounts_foldl_bump (fun e => e.installerVersion.getD "unknown") entities []
  simpa [versionTally, sumCounts] using this

/-- Stable insertion produces a permutation of consing. -/
theorem insertDesc_perm (x : String × Nat) (l : List (String × Nat)) :
    List.Perm (insertDesc x l) (x :: l) := by
  induction l with
  | nil => simp [insertDesc]
  | cons y ys ih =>
      by_cases h : x.2 ≤ y.2
      · simp only [insertDesc, if_pos h]
        exact (ih.cons y).trans (List.Perm.swap x y ys)
      · simp [insertDesc, if_neg h]

/-- The stable descending sort permutes its input. -/
theorem sortDesc_perm (l : List (String × Nat)) : List.Perm (sortDesc l) l := by
  suffices h : ∀ (l acc : List (String × Nat)),
      List.Perm (l.foldl (fun a x => insertDesc x a) acc) (l ++ acc) by
    simpa [sortDesc] using h l []
  intro l
  induction l with
  | nil => intro acc; simp
  | cons x xs ih =>
      intro acc
      have h1 := ih (insertDesc x acc)
      have h2 : List.Perm (xs ++ insertDesc x acc) (xs ++ (x :: acc)) :=
        List.Perm.append_left xs (insertDesc_perm x acc)
      have h3 : List.Perm (xs ++ (x :: acc)) (x :: (xs ++ acc)) := List.perm_middle
      exact (h1.trans h2).trans h3

/-- Stable insertion into a descending list keeps it descending. -/
theorem pairwise_insertDesc (x : String × Nat) {l : List (String × Nat)}
    (h : l.Pairwise (fun a b => b.2 ≤ a.2)) :
    (insertDesc x l).Pairwise (fun a b => b.2 ≤ a.2) := by
  induction l with
  | nil => simp [insertDesc]
  | cons y ys ih =>
      rw [List.pairwise_cons] at h
      obtain ⟨hy, hys⟩ := h
      by_cases hxy : x.2 ≤ y.2
      · simp only [insertDesc, if_pos hxy]
        rw [List.pairwise_cons]
        refine ⟨?_, ih hys⟩
        intro b hb
        have hb' : b = x ∨ b ∈ ys := by
          have := (insertDesc_perm x ys).mem_iff.mp hb
          simpa using this
        rcases hb' with rfl | hbys
        · exact hxy
        · exact hy b hbys
      · simp only [insertDesc, if_neg hxy]
        rw [List.pairwise_cons]
        refine ⟨?_, ?_⟩
        · intro b hb
          rcases List.mem_cons.mp hb with rfl | hbys
          · omega
          · have := hy b hbys
            omega
        · rw [List.pairwise_cons]
          exact ⟨hy, hys⟩

/-- The stable descending sort yields a descending list of counts. -/
theorem sortDesc_sorted (l : List (String × Nat)) :
    (sortDesc l).Pairwise (fun a b => b.2 ≤ a.2) := by
  suffices h : ∀ (l acc : List (String × Nat)), acc.Pairwise (fun a b => b.2 ≤ a.2) →
      (l.foldl (fun a x => insertDesc x a) acc).Pairwise (fun a b => b.2 ≤ a.2) by
    exact h l [] (by simp)
  intro l
  induction l with
  | nil => intro acc h; simpa using h
  | cons x xs ih => intro acc h; exact ih _ (pairwise_insertDesc x h)

/-- In a descending list headed by a count below `c`, no element has count `c`. -/
theorem filter_count_nil_of_lt {c : Nat} {y : String × Nat} {ys : List (String × Nat)}
    (hs : (y :: ys).Pairwise (fun a b => b.2 ≤ a.2)) (h : y.2 < c) :
    (y :: ys).filter (fun a => a.2 == c) = [] := by
  rw [List.pairwise_cons] at hs
  rw [List.filter_eq_nil_iff]
  intro a ha
  rcases List.mem_cons.mp ha with rfl | has
  · simp
    omega
  · have := hs.1 a has
    simp
    omega

/-- How stable insertion interacts with selecting one count value: an element
of that count goes to the end of the selection, any other count leaves the
selection unchanged. -/
theorem filter_insertDesc (c : Nat) (x : String × Nat) :
    ∀ l : List (String × Nat), l.Pairwise (fun a b => b.2 ≤ a.2) →
      (insertDesc x l).filter (fun y => y.2 == c) =
        (if x.2 = c then l.filter (fun y => y.2 == c) ++ [x]
         else l.filter (fun y => y.2 == c)) := by
  intro l
  induction l with
  | nil =>
      intro _
      by_cases hx : x.2 = c <;> simp [insertDesc, List.filter_cons, hx]
  | cons y ys ih =>
      intro hs
      have hys : ys.Pairwise (fun a b => b.2 ≤ a.2) := (List.pairwise_cons.mp hs).2
      by_cases hxy : x.2 ≤ y.2
      · simp only [insertDesc, if_pos hxy, List.filter_cons, ih hys]
        by_cases hy : y.2 = c <;> by_cases hx : x.2 = c <;> simp [hy, hx]
      · simp only [insertDesc, if_neg hxy]
        rw [List.filter_cons]
        by_cases hx : x.2 = c
        · have hnil : (y :: ys).filter (fun a => a.2 == c) = [] :=
            filter_count_nil_of_lt hs (by omega)
          simp [hx, hnil]
        · simp [hx]

/-- Stability of the descending sort: for each count value, the elements
carrying that count appear in the sorted output exactly in input order. -/
theorem filter_sortDesc (c : Nat) (l : List (String × Nat)) :
    (sortDesc l).filter (fun y => y.2 == c) = l.filter (fun y => y.2 == c) := by
  suffices h : ∀ (l acc : List (String × Nat)), acc.Pairwise (fun a b => b.2 ≤ a.2) →
      (l.foldl (fun a x => insertDesc x a) acc).filter (fun y => y.2 == c) =
        acc.filter (fun y => y.2 == c) ++ l.filter (fun y => y.2 == c) by
    simpa [sortDesc] using h l [] (by simp)
  intro l
  induction l with
  | nil => intro acc _; simp
  | cons x xs ih =>
      intro acc hacc
      rw [List.foldl_cons, ih _ (pairwise_insertDesc x hacc),
        filter_insertDesc c x acc hacc, List.filter_cons]
      by_cases hx : x.2 = c <;> simp [hx]

/-- The status string of a summary is determined by where the clamped score
falls relative to the 90 and 70 thresholds. -/
theorem generate_summary_status (pd : ProblemsData) (ag : CheckResult ActivegateData)
    (issues : List String) :
    ((generate_summary pd ag issues).status = "🟢 Healthy" ↔
        90 ≤ (generate_summary pd ag issues).health_score) ∧
    ((generate_summary pd ag issues).status = "🟡 Needs Attention" ↔
        70 ≤ (generate_summary pd ag issues).health_score ∧
        (generate_summary pd ag issues).health_score < 90) ∧
    ((generate_summary pd ag issues).status = "🔴 Critical" ↔
        (generate_summary pd ag issues).health_score < 70) := by
  simp only [generate_summary]
  set s := clampScore pd.critical pd.warnings (agOffline ag) with hs
  by_cases h90 : 90 ≤ s
  · rw [if_pos h90]
    refine ⟨⟨fun _ => h90, fun _ => rfl⟩, ?_, ?_⟩
    · exact ⟨fun h => absurd h (by decide), fun h => by omega⟩
    · exact ⟨fun h => absurd h (by decide), fun h => by omega⟩
  · rw [if_neg h90]
    by_cases h70 : 70 ≤ s
    · rw [if_pos h70]
      refine ⟨?_, ?_, ?_⟩
      · exact ⟨fun h => absurd h (by decide), fun h => by omega⟩
      · exact ⟨fun _ => by omega, fun _ => rfl⟩
      · exact ⟨fun h => absurd h (by decide), fun h => by omega⟩
    · rw [if_neg h70]
      refine ⟨?_, ?_, ?_⟩
      · exact ⟨fun h => absurd h (by decide), fun h => by omega⟩
      · exact ⟨fun h => absurd h (by decide), fun h => by omega⟩
      · exact ⟨fun _ => by omega, fun _ => rfl⟩

/-- Concrete fleet input realizing version counts
`{"1.0": 5, "1.1": 3, "1.2": 1, "1.3": 1}` with versions first seen in the
order 1.0, 1.1, 1.2, 1.3. -/
def exampleEntities : List HostEntity :=
  List.replicate 5 (⟨some "FULL_STACK", some "1.0"⟩ : HostEntity) ++
  List.replicate 3 (⟨some "FULL_STACK", some "1.1"⟩ : HostEntity) ++
  [⟨some "INFRASTRUCTURE", some "1.2"⟩, ⟨some "INFRASTRUCTURE", some "1.3"⟩]

/-- A fully configured example configuration (no placeholder substrings,
every check toggle on). -/
def exampleConfig : Config :=
  ⟨"https://abc12345.live.dynatrace.com", "dt0c01.sample", "+15551230000",
   true, true, true⟩

/-! ## Claim theorems -/

/-- C1: For every analysis result, the summary health score equals 100 minus
10 per critical (ERROR-severity) problem, minus 2 per WARNING-severity
problem, minus 15 per offline ActiveGate, clamped to [0, 100]; the status
label is the healthy one when the clamped score is ≥ 90, the
needs-attention one when it is in [70, 90), and the critical one otherwise;
and the summary carries the full accumulated issues list together with its
length as the issue count. -/
theorem summary_score_status_issues_spec (cfg : Config) (inp : AnalyzeInput) :
    ((analyze_all cfg inp).1.summary.health_score =
      max 0 (min 100 (100 - ((analyze_all cfg inp).1.problems.critical : Int) * 10
        - ((analyze_all cfg inp).1.problems.warnings : Int) * 2
        - (agOffline (analyze_all cfg inp).1.activegate : Int) * 15))) ∧
    ((analyze_all cfg inp).1.summary.status = "🟢 Healthy" ↔
      90 ≤ (analyze_all cfg inp).1.summary.health_score) ∧
    ((analyze_all cfg inp).1.summary.status = "🟡 Needs Attention" ↔
      70 ≤ (analyze_all cfg inp).1.summary.health_score ∧
      (analyze_all cfg inp).1.summary.health_score < 90) ∧
    ((analyze_all cfg inp).1.summary.status = "🔴 Critical" ↔
      (analyze_all cfg inp).1.summary.health_score < 70) ∧
    (analyze_all cfg inp).1.summary.issues = (analyze_all cfg inp).2 ∧
    (analyze_all cfg inp).1.summary.issues_count = (analyze_all cfg inp).2.length := by
  refine ⟨rfl, ?_, ?_, ?_, rfl, rfl⟩
  · exact (generate_summary_status (analyze_problems inp.problems).1
      (analyze_activegate cfg inp.activegates).1 (analyze_all cfg inp).2).1
  · exact (generate_summary_status (analyze_problems inp.problems).1
      (analyze_activegate cfg inp.activegates).1 (analyze_all cfg inp).2).2.1
  · exact (generate_summary_status (analyze_problems inp.problems).1
      (analyze_activegate cfg inp.activegates).1 (analyze_all cfg inp).2).2.2

/-- C4: For every problem list, the problems check reports critical and
warning counts summing to at most the total, surfaces exactly the first
min(5, total) problems as (title, severity) pairs, and appends the critical
issue string if and only if the critical count is positive. -/
theorem problems_check_spec (problems : List Problem) :
    (analyze_problems problems).1.critical + (analyze_problems problems).1.warnings ≤
      (analyze_problems problems).1.total ∧
    (analyze_problems problems).1.details =
      (problems.take 5).map (fun p => (p.title, p.severityLevel)) ∧
    (analyze_problems problems).1.details.length = min 5 problems.length ∧
    (criticalIssueMsg (analyze_problems problems).1.critical ∈
        (analyze_problems problems).2 ↔
      0 < (analyze_problems problems).1.critical) := by
  refine ⟨?_, rfl, ?_, ?_⟩
  · have hdisj : ∀ p : Problem,
        ¬((p.severityLevel == "ERROR") = true ∧ (p.severityLevel == "WARNING") = true) := by
      intro p hpq
      obtain ⟨h1, h2⟩ := hpq
      simp only [beq_iff_eq] at h1 h2
      rw [h1] at h2
      exact absurd h2 (by decide)
    exact length_filter_add_length_filter_le _ _ hdisj problems
  · simp [analyze_problems]
  · have hcrit : (analyze_problems problems).1.critical =
        (problems.filter (fun p => p.severityLevel == "ERROR")).length := rfl
    have hiss : (analyze_problems problems).2 =
        (if 0 < (problems.filter (fun p => p.severityLevel == "ERROR")).length
         then [criticalIssueMsg (problems.filter (fun p => p.severityLevel == "ERROR")).length]
         else []) := rfl
    rw [hcrit, hiss]
    by_cases h : 0 < (problems.filter (fun p => p.severityLevel == "ERROR")).length
    · simp [h]
    · simp [h]

/-- C5: The health score is monotonically non-increasing in the
critical-problem, warning, and offline-gateway counts, always lies in
[0, 100], and is exactly the score `_generate_summary` assigns. -/
theorem health_score_monotone_bounded (c₁ w₁ o₁ c₂ w₂ o₂ : Nat)
    (hc : c₁ ≤ c₂) (hw : w₁ ≤ w₂) (ho : o₁ ≤ o₂) :
    clampScore c₂ w₂ o₂ ≤ clampScore c₁ w₁ o₁ ∧
    (∀ c w o : Nat, 0 ≤ clampScore c w o ∧ clampScore c w o ≤ 100) ∧
    (∀ (pd : ProblemsData) (ag : CheckResult ActivegateData) (issues : List String),
      (generate_summary pd ag issues).health_score =
        clampScore pd.critical pd.warnings (agOffline ag)) := by
  refine ⟨?_, ?_, fun pd ag issues => rfl⟩
  · unfold clampScore
    have h1 : (100 : Int) - (c₂ : Int) * 10 - (w₂ : Int) * 2 - (o₂ : Int) * 15 ≤
        100 - (c₁ : Int) * 10 - (w₁ : Int) * 2 - (o₁ : Int) * 15 := by
      omega
    exact max_le_max (le_refl 0) (min_le_min (le_refl 100) h1)
  · intro c w o
    unfold clampScore
    exact ⟨le_max_left 0 _, max_le (by norm_num) (min_le_left _ _)⟩

/-- Witness for C5 at concrete inputs: the pair (1,0,0) is dominated by
(2,1,1), and the pathological input of 50 critical problems stays in
[0, 100]. -/
theorem health_score_monotone_bounded_witness :
    clampScore 2 1 1 ≤ clampScore 1 0 0 ∧
    0 ≤ clampScore 50 0 0 ∧ clampScore 50 0 0 ≤ 100 := by
  have h := health_score_monotone_bounded 1 0 0 2 1 1 (by decide) (by decide) (by decide)
  exact ⟨h.1, (h.2.1 50 0 0).1, (h.2.1 50 0 0).2⟩

/-- C6: For every host-entity list (with the fleet check enabled), the
version-fragmentation issue is appended if and only if more than 3 distinct
installer-version strings occur; the reported top-3 versions are the first
three entries of the stable descending sort on count of the insertion-ordered
version tally (so ties are broken by first-encounter order: the sort is a
permutation that is descending on counts and preserves the relative order of
equal counts); and on the concrete counts {1.0: 5, 1.1: 3, 1.2: 1, 1.3: 1}
the issue is present and the top-3 is [(1.0, 5), (1.1, 3), (1.2, 1)]. -/
theorem fleet_fragmentation_top3 (cfg : Config) (entities : List HostEntity)
    (h : cfg.checkOneagent = true) :
    (fragmentationIssueMsg (versionTally entities).length ∈
        (analyze_oneagent cfg entities).2 ↔
      3 < (versionTally entities).length) ∧
    ((analyze_oneagent cfg entities).1 = .ran
      ⟨entities.length, modeTally entities, (versionTally entities).length,
        (sortDesc (versionTally entities)).take 3⟩) ∧
    (sortDesc (versionTally entities)).Pairwise (fun a b => b.2 ≤ a.2) ∧
    (∀ c : Nat, (sortDesc (versionTally entities)).filter (fun y => y.2 == c) =
      (versionTally entities).filter (fun y => y.2 == c)) ∧
    versionTally exampleEntities = [("1.0", 5), ("1.1", 3), ("1.2", 1), ("1.3", 1)] ∧
    analyze_oneagent exampleConfig exampleEntities =
      (.ran ⟨10, [("FULL_STACK", 8), ("INFRASTRUCTURE", 2)], 4,
        [("1.0", 5), ("1.1", 3), ("1.2", 1)]⟩,
       [fragmentationIssueMsg 4]) := by
  have hsnd : (analyze_oneagent cfg entities).2 =
      (if 3 < (versionTally entities).length
       then [fragmentationIssueMsg (versionTally entities).length] else []) := by
    simp [analyze_oneagent, h]
  refine ⟨?_, ?_, sortDesc_sorted _, fun c => filter_sortDesc c _, by decide, by decide⟩
  · rw [hsnd]
    by_cases hlen : 3 < (versionTally entities).length
    · simp [hlen]
    · simp [hlen]
  · simp [analyze_oneagent, h]

/-- Witness for C6 at the concrete fleet example: the fragmentation-issue
equivalence and the reported result, instantiated at `exampleEntities`. -/
theorem fleet_fragmentation_top3_witness :
    (fragmentationIssueMsg (versionTally exampleEntities).length ∈
        (analyze_oneagent exampleConfig exampleEntities).2 ↔
      3 < (versionTally exampleEntities).length) ∧
    analyze_oneagent exampleConfig exampleEntities =
      (.ran ⟨10, [("FULL_STACK", 8), ("INFRASTRUCTURE", 2)], 4,
        [("1.0", 5), ("1.1", 3), ("1.2", 1)]⟩,
       [fragmentationIssueMsg 4]) :=
  ⟨(fleet_fragmentation_top3 exampleConfig exampleEntities rfl).1,
   (fleet_fragmentation_top3 exampleConfig exampleEntities rfl).2.2.2.2.2⟩

/-- C10: For every host-entity list (with the fleet check enabled), the
monitoring-mode histogram's counts sum to the total host count, the
version tally's counts sum to the total host count (entities missing a mode
or version are tallied under the unknown bucket), and the reported
top-3 versions are at most 3 pairs, each occurring in the full version tally
with the same count. -/
theorem fleet_invariants (cfg : Config) (entities : List HostEntity)
    (h : cfg.checkOneagent = true) (d : OneagentData)
    (hd : (analyze_oneagent cfg entities).1 = .ran d) :
    sumCounts d.monitoring_modes = d.total_hosts ∧
    sumCounts (versionTally entities) = d.total_hosts ∧
    d.top_versions.length ≤ 3 ∧
    (∀ kv ∈ d.top_versions, kv ∈ versionTally entities) ∧
    modeTally [⟨none, some "1.0"⟩] = [("unknown", 1)] ∧
    versionTally [⟨some "FULL_STACK", none⟩] = [("unknown", 1)] := by
  have hran : (analyze_oneagent cfg entities).1 = .ran
      ⟨entities.length, modeTally entities, (versionTally entities).length,
        (sortDesc (versionTally entities)).take 3⟩ := by
    simp [analyze_oneagent, h]
  rw [hran] at hd
  injection hd with hd'
  subst hd'
  refine ⟨sumCounts_modeTally entities, sumCounts_versionTally entities, ?_, ?_, rfl, rfl⟩
  · rw [List.length_take]
    exact Nat.min_le_left _ _
  · intro kv hkv
    exact (sortDesc_perm (versionTally entities)).mem_iff.mp (List.mem_of_mem_take hkv)

/-- Witness for C10 at the concrete fleet example: mode counts sum to the
host total and the reported top-3 list has at most 3 entries. -/
theorem fleet_invariants_witness :
    sumCounts [("FULL_STACK", 8), ("INFRASTRUCTURE", 2)] = 10 ∧
    ([("1.0", 5), ("1.1", 3), ("1.2", 1)] : List (String × Nat)).length ≤ 3 := by
  have h := fleet_invariants exampleConfig exampleEntities rfl
      ⟨10, [("FULL_STACK", 8), ("INFRASTRUCTURE", 2)], 4,
        [("1.0", 5), ("1.1", 3), ("1.2", 1)]⟩ (by decide)
  exact ⟨h.1, h.2.2.1⟩

/-- Configuration with every check toggle disabled (the `CONFIG` dict has
exactly three `CHECK_*` toggles; none governs the problems check). -/
def allOffConfig : Config :=
  ⟨"https://abc.live.dynatrace.com", "tok", "+15551230000", false, false, false⟩

/-- Input with a single ERROR-severity problem and nothing else. -/
def oneCriticalInput : AnalyzeInput := ⟨[⟨"DB down", "ERROR"⟩], [], [], []⟩

/-- C2 counterexample: with every configuration toggle disabled, the three
toggled checks do skip, yet the problems check still runs on a single
critical problem — it produces a full (non-skipped) result, appends an issue
string, and deducts 10 points from the health score. No configuration toggle
can skip it, refuting the claim that all four checks are individually
skippable. -/
theorem four_checks_skippable_counterexample :
    (analyze_all allOffConfig oneCriticalInput).1.oneagent = .skipped ∧
    (analyze_all allOffConfig oneCriticalInput).1.activegate = .skipped ∧
    (analyze_all allOffConfig oneCriticalInput).1.synthetic = .skipped ∧
    (analyze_all allOffConfig oneCriticalInput).2 = [criticalIssueMsg 1] ∧
    (analyze_all allOffConfig oneCriticalInput).1.problems =
      ⟨1, 1, 0, [("DB down", "ERROR")]⟩ ∧
    (analyze_all allOffConfig oneCriticalInput).1.summary.health_score = 90 := by
  refine ⟨rfl, rfl, rfl, by decide, by decide, by decide⟩

/-- C2 amended: the OneAgent, ActiveGate and synthetic checks are each
individually skippable via their configuration toggles; a skipped check
reports the skipped marker and contributes no issue strings and (for the
ActiveGate check) no health-score deduction. The problems check has no
toggle and always runs. -/
theorem three_checks_skippable (cfg : Config) (inp : AnalyzeInput) :
    (cfg.checkOneagent = false → analyze_oneagent cfg inp.entities = (.skipped, [])) ∧
    (cfg.checkActivegate = false → analyze_activegate cfg inp.activegates = (.skipped, [])) ∧
    (cfg.checkSynthetic = false → analyze_synthetic cfg inp.monitors = (.skipped, [])) ∧
    (cfg.checkActivegate = false →
      (analyze_all cfg inp).1.summary.health_score =
        clampScore (analyze_all cfg inp).1.problems.critical
          (analyze_all cfg inp).1.problems.warnings 0) ∧
    (analyze_all cfg inp).1.problems = (analyze_problems inp.problems).1 := by
  refine ⟨?_, ?_, ?_, ?_, rfl⟩
  · intro h
    simp [analyze_oneagent, h]
  · intro h
    simp [analyze_activegate, h]
  · intro h
    simp [analyze_synthetic, h]
  · intro h
    have hag : (analyze_activegate cfg inp.activegates).1 = .skipped := by
      simp [analyze_activegate, h]
    have hs : (analyze_all cfg inp).1.summary.health_score =
        clampScore (analyze_problems inp.problems).1.critical
          (analyze_problems inp.problems).1.warnings
          (agOffline (analyze_activegate cfg inp.activegates).1) := rfl
    rw [hs, hag]
    rfl

/-- Witness for C2's amended claim at the all-toggles-off configuration. -/
theorem three_checks_skippable_witness :
    analyze_oneagent allOffConfig oneCriticalInput.entities = (.skipped, []) ∧
    analyze_activegate allOffConfig oneCriticalInput.activegates = (.skipped, []) ∧
    analyze_synthetic allOffConfig oneCriticalInput.monitors = (.skipped, []) ∧
    (analyze_all allOffConfig oneCriticalInput).1.summary.health_score =
      clampScore (analyze_all allOffConfig oneCriticalInput).1.problems.critical
        (analyze_all allOffConfig oneCriticalInput).1.problems.warnings 0 :=
  ⟨(three_checks_skippable allOffConfig oneCriticalInput).1 rfl,
   (three_checks_skippable allOffConfig oneCriticalInput).2.1 rfl,
   (three_checks_skippable allOffConfig oneCriticalInput).2.2.1 rfl,
   (three_checks_skippable allOffConfig oneCriticalInput).2.2.2.1 rfl⟩

/-- C3 counterexample: when the primary osascript run raises a handled,
non-timeout error, `send_imessage` lands in its bare `except Exception`
handler and returns False without invoking the fallback — even one that
would succeed — refuting the claim that the fallback is invoked on every
handled non-timeout error. -/
theorem fallback_not_invoked_on_handled_error :
    send_imessage (.raised "OSError: osascript not found") (.exited 0 "") =
      (false, false) := rfl

/-- C3 amended: the fallback is invoked exactly when the primary osascript
run completes with a non-zero exit status; it is never invoked on primary
timeout, never on any raised exception, and never on exit status zero. -/
theorem fallback_iff_nonzero_exit (primary fallback : RunOutcome) :
    ((send_imessage primary fallback).2 = true ↔
      ∃ code stderr, primary = .exited code stderr ∧ code ≠ 0) ∧
    (∀ stderr, send_imessage (.exited 0 stderr) fallback = (true, false)) ∧
    send_imessage .timedOut fallback = (false, false) ∧
    (∀ msg, send_imessage (.raised msg) fallback = (false, false)) := by
  refine ⟨?_, fun stderr => rfl, rfl, fun msg => rfl⟩
  cases primary with
  | exited code stderr =>
      by_cases h : code = 0
      · subst h
        simp [send_imessage]
      · simp [send_imessage, h]
  | timedOut => simp [send_imessage]
  | raised msg => simp [send_imessage]

/-- The module-level default configuration: both credential values still hold
their `YOUR_`-placeholders and the recipient its `1234567890` placeholder. -/
def placeholderConfig : Config :=
  ⟨"https://YOUR_TENANT.live.dynatrace.com", "YOUR_API_TOKEN", "+1234567890",
   true, true, true⟩

/-- C7: whenever the tenant URL or the API token still holds its placeholder
value, report generation performs zero API calls (the call list is empty and
the result does not depend on the API environment) and returns the fixed
setup-instructions text, verbatim up to the final `strip()`. -/
theorem unconfigured_report_spec (cfg : Config) (ts : String) (env : ConfiguredOutcome)
    (h : isUnconfigured cfg = true) :
    generate_daily_report cfg ts env = (pyStrip (unconfiguredRaw ts), []) := by
  simp [generate_daily_report, h]

/-- Witness for C7 at the default placeholder configuration. -/
theorem unconfigured_report_spec_witness :
    generate_daily_report placeholderConfig "2025-01-01 11:00 IST"
        (.completed ⟨[], [], [], []⟩) =
      (pyStrip (unconfiguredRaw "2025-01-01 11:00 IST"), []) :=
  unconfigured_report_spec placeholderConfig "2025-01-01 11:00 IST"
    (.completed ⟨[], [], [], []⟩) (by decide)

/-- C8: for every exception raised inside the analysis path of a configured
run, report generation catches it and returns the error-branch text — which
contains the exception message truncated to at most 100 characters and the
pointer to the log file — instead of raising (the report function is total:
this equation is its entire behavior on the raising environment). -/
theorem error_report_spec (cfg : Config) (ts msg : String) (calls : List String)
    (h : isUnconfigured cfg = false) :
    generate_daily_report cfg ts (.raised msg calls) =
      (pyStrip (errorRaw ts msg), calls) ∧
    strContains (errorRaw ts msg) (truncate100 msg) = true ∧
    (truncate100 msg).length ≤ 100 := by
  refine ⟨by simp [generate_daily_report, h], ?_, ?_⟩
  · exact strContains_of_infix
      ("\n🔔 Dynatrace Daily Report\n📅 " ++ ts ++ "\n\n❌ Error fetching data\n")
      (truncate100 msg) "\n\nCheck logs: ~/Library/Logs/dynatrace_agent.log\n"
  · have hlen : (truncate100 msg).length = (msg.toList.take 100).length := rfl
    rw [hlen, List.length_take]
    exact Nat.min_le_left _ _

/-- Witness for C8 on a configured run whose analysis raises. -/
theorem error_report_spec_witness :
    generate_daily_report exampleConfig "ts" (.raised "boom" ["problems"]) =
      (pyStrip (errorRaw "ts" "boom"), ["problems"]) ∧
    strContains (errorRaw "ts" "boom") (truncate100 "boom") = true ∧
    (truncate100 "boom").length ≤ 100 :=
  error_report_spec exampleConfig "ts" "boom" ["problems"] (by decide)

/-- C9: placeholder detection is a substring test, not an equality test:
report generation takes the unconfigured branch whenever the tenant URL or
the API token contains `YOUR_` anywhere, and `main` skips delivery (printing
only) whenever the recipient contains `1234567890` anywhere — so a genuine
credential URL or a genuine longer phone number containing these substrings
is still treated as unconfigured. -/
theorem placeholder_substring_spec :
    (∀ cfg : Config, isUnconfigured cfg =
      (strContains cfg.tenantUrl "YOUR_" || strContains cfg.apiToken "YOUR_")) ∧
    (∀ (cfg : Config) (ts : String) (env : ConfiguredOutcome), isUnconfigured cfg = true →
      generate_daily_report cfg ts env = (pyStrip (unconfiguredRaw ts), [])) ∧
    (∀ (recipient report : String) (primary fallback : RunOutcome),
      strContains recipient "1234567890" = true →
      main_delivery recipient report primary fallback = .printedOnly) ∧
    isUnconfigured ⟨"https://abc.live.dynatrace.com/?q=YOUR_QUERY", "real-token",
      "+15551230000", true, true, true⟩ = true ∧
    strContains "+15551234567890" "1234567890" = true ∧
    main_delivery "+15551234567890" "report text" (.exited 0 "") (.exited 0 "") =
      .printedOnly := by
  refine ⟨fun cfg => rfl, ?_, ?_, by decide, by decide, by decide⟩
  · intro cfg ts env h
    simp [generate_daily_report, h]
  · intro recipient report primary fallback h
    simp [main_delivery, h]

/-- Witness for C9: the implications instantiated at the default placeholder
configuration and at a genuine longer phone number containing the sentinel
digits. -/
theorem placeholder_substring_spec_witness :
    generate_daily_report placeholderConfig "t" (.completed ⟨[], [], [], []⟩) =
      (pyStrip (unconfiguredRaw "t"), []) ∧
    main_delivery "+15551234567890" "r" .timedOut .timedOut = .printedOnly :=
  ⟨placeholder_substring_spec.2.1 placeholderConfig "t" (.completed ⟨[], [], [], []⟩)
      (by decide),
   placeholder_substring_spec.2.2.1 "+15551234567890" "r" .timedOut .timedOut (by decide)⟩

end DynatraceAgent
